import Mathlib

/-!
Verification development for the webhook ingestion and message relay pipeline
of the CRT client application.

The serverless functions under `netlify/functions` are shallowly embedded as
pure Lean functions.  HTTP events become records; JSON response bodies are
flattened into an `HttpResponse` record exposing the observable fields
(status code, plain-text body, and the relevant JSON fields); every external
effect (database write, queue insert, outbound send, dead-letter write) is
recorded in an explicit trace so that theorems can speak about which effects
occurred.  External library calls that are not part of this repository
(JSON.parse, the HMAC signature check, the Supabase network round trips, the
AI backend and send API calls) are supplied as explicit oracle parameters
describing the outcomes of their successive invocations.

The helper modules `message-processor`, `error-recovery`, `message-queue`,
`session-manager` and `webhook-security` are required by the handler source
but their implementation files are not part of the repository snapshot; the
definitions below that stand in for them are modelled from the spec and say
so in their doc comments.
-/

/-- A JavaScript runtime error as observed by the pipeline: its message,
whether the error-recovery module classifies it as transient
(network/timeout), and the HTTP status of an attached response if any. -/
structure JsError where
  message : String
  transient : Bool
  status : Option Nat
  deriving DecidableEq, Repr

/-- Modelled from the spec: error-recovery's `isTransientError` classifies an
error by shape — network errors and timeouts are transient, validation/4xx
errors are permanent.  The classification is carried on the embedded error
value itself. -/
def isTransientError (e : JsError) : Bool := e.transient

/-- The TypeError raised by JavaScript when a property of `undefined` is
accessed (e.g. `evt.sender.id` with no sender). -/
def typeErrorUndefined : JsError :=
  { message := "Cannot read properties of undefined", transient := false, status := none }

/-- The TypeError raised when iterating a missing `data.entry`. -/
def typeErrorNotIterable : JsError :=
  { message := "data.entry is not iterable", transient := false, status := none }

/-- An HTTP response with its JSON body flattened into observable fields:
`textBody` is a plain-text body (the challenge echo), `jsonStatus` the
`status` field of a JSON body, `jsonError` the `error` (or `message`) field,
`jsonQueued` and `jsonProcessed` the counters of the ingestion success
body. -/
structure HttpResponse where
  statusCode : Nat
  textBody : Option String := none
  jsonStatus : Option String := none
  jsonError : Option String := none
  jsonQueued : Option Nat := none
  jsonProcessed : Option Nat := none
  deriving DecidableEq, Repr

/-- An inbound HTTP event as delivered to a Netlify handler: method, path,
headers, raw body, and the three `hub.*` query-string parameters read by the
verification handler (absent parameter = `none`). -/
structure WebEvent where
  httpMethod : String
  path : String
  headers : List (String × String) := []
  body : String := ""
  hubMode : Option String := none
  hubToken : Option String := none
  hubChallenge : Option String := none
  deriving DecidableEq, Repr

/-- JavaScript falsiness of an optional string: `undefined` and the empty
string are falsy. -/
def jsFalsyOpt : Option String → Bool
  | none => true
  | some s => decide (s = "")

/-- A row of the `webhook_configs` table (spec data model: per-tenant,
per-channel verification token and activation flag). -/
structure WebhookConfig where
  id : Nat
  user_id : String
  platform : String
  verification_token : String
  is_active : Bool
  deriving DecidableEq, Repr

/-- Worker of the JavaScript-style split: accumulate the current segment
until the separator, emitting segments in order. -/
def splitCharAux (sep : Char) : List Char → List Char → List String
  | [], acc => [String.mk acc.reverse]
  | c :: cs, acc =>
    if c = sep then String.mk acc.reverse :: splitCharAux sep cs []
    else splitCharAux sep cs (c :: acc)

/-- JavaScript `String.prototype.split` with a one-character separator, as
used on the request path (`"/a/b".split` gives `["", "a", "b"]`). -/
def jsSplit (s : String) (sep : Char) : List String :=
  splitCharAux sep s.data []

/-- The tenant/platform extraction of the verification handler: split the
path on `/`; when there are at least five segments and segment 2 is
`webhooks`, take segments 3 and 4, else keep the defaults
(userId null, platform 'all'). -/
def verifPathIds (path : String) : Option String × String :=
  let segs := jsSplit path '/'
  if 5 ≤ segs.length ∧ segs.get? 2 = some "webhooks" then
    (some ((segs.get? 3).getD ""), (segs.get? 4).getD "")
  else
    (none, "all")

/-- The filter the verification handler builds on the `webhook_configs`
query: always equality on `verification_token`; equality on `user_id` only
when the extracted userId is truthy; equality on `platform` only when the
extracted platform is truthy and not 'all'. -/
def matchesConfig (userId : Option String) (platform : String) (token : String)
    (c : WebhookConfig) : Bool :=
  decide (c.verification_token = token)
    && (match userId with
        | some u => if u = "" then true else decide (c.user_id = u)
        | none => true)
    && (if platform = "" ∨ platform = "all" then true else decide (c.platform = platform))

/-- The GET verification handler of `meta-webhook-verification.js`.  `db`
describes the module-level Supabase client: `none` when initialization was
skipped because of missing credentials, `some (.error e)` when the
`webhook_configs` query fails, and `some (.ok configs)` when the query
source table holds `configs`; the handler filters that table exactly as the
built query does. -/
def verificationHandler (db : Option (Except JsError (List WebhookConfig)))
    (event : WebEvent) : HttpResponse :=
  if event.httpMethod = "OPTIONS" then
    { statusCode := 204 }
  else if event.httpMethod ≠ "GET" then
    { statusCode := 405
      jsonError := some "Method not allowed. Please use GET for webhook verification." }
  else
    if event.hubMode ≠ some "subscribe" then
      { statusCode := 400
        jsonError := some "Invalid hub.mode parameter. Expected subscribe." }
    else if jsFalsyOpt event.hubToken then
      { statusCode := 400, jsonError := some "Missing hub.verify_token parameter." }
    else
      let token := event.hubToken.getD ""
      let ids := verifPathIds event.path
      match db with
      | some (.error _) =>
          { statusCode := 500, jsonError := some "Error verifying webhook token." }
      | some (.ok configs) =>
          if (configs.filter (matchesConfig ids.1 ids.2 token)).isEmpty then
            { statusCode := 401, jsonError := some "Invalid verification token." }
          else
            { statusCode := 200, textBody := event.hubChallenge }
      | none =>
          { statusCode := 401, jsonError := some "Invalid verification token." }

/-! ## Context extraction from the AI reply (`extractContextFromVoiceflowResponse`) -/

/-- A session context / JavaScript object as an insertion-ordered list of
key/value entries. -/
abbrev Ctx := List (String × String)

/-- JavaScript object property update: overwrite in place when the key
exists, append otherwise. -/
def insertCtx : Ctx → String → String → Ctx
  | [], k, v => [(k, v)]
  | (k', v') :: rest, k, v =>
    if k' = k then (k', v) :: rest else (k', v') :: insertCtx rest k v

/-- JavaScript object property read. -/
def lookupCtx : Ctx → String → Option String
  | [], _ => none
  | (k', v') :: rest, k => if k' = k then some v' else lookupCtx rest k

/-- One item of the structured Voiceflow reply array: its `type` tag and its
`payload` object (key/value entries; a text item's display text is its
`message` property). -/
structure VFItem where
  type : String
  payload : Option Ctx
  deriving DecidableEq, Repr

/-- A character admitted in a context-marker key by the regex character
class [a-zA-Z0-9_]. -/
def isKeyChar (c : Char) : Bool := c.isAlphanum || c = '_'

/-- Try to read one [[SET:key=value]] marker at the head of the character
list, mirroring the regex: literal prefix, one or more key characters, an
equals sign, one or more non-bracket characters, closing brackets.  Returns
the key, the value and the rest of the input after the marker. -/
def tryMarker : List Char → Option (String × String × List Char)
  | '[' :: '[' :: 'S' :: 'E' :: 'T' :: ':' :: rest =>
    match rest.span isKeyChar with
    | (key, '=' :: rest2) =>
      if key.isEmpty then none
      else
        match rest2.span (fun c => c ≠ ']') with
        | (value, ']' :: ']' :: rest3) =>
          if value.isEmpty then none
          else some (String.mk key, String.mk value, rest3)
        | _ => none
    | _ => none
  | _ => none

/-- Left-to-right regex scan: at each position try to match a marker; on a
match emit the captured pair and continue after the match, otherwise advance
one character, exactly as a global regex exec loop does.  Fuel bounds the
recursion by the input length. -/
def scanMarkersAux : Nat → List Char → List (String × String)
  | 0, _ => []
  | _ + 1, [] => []
  | fuel + 1, c :: cs =>
    match tryMarker (c :: cs) with
    | some (k, v, rest) => (k, v) :: scanMarkersAux fuel rest
    | none => scanMarkersAux fuel cs

/-- All [[SET:key=value]] captures of a string, in order. -/
def scanMarkers (s : String) : List (String × String) :=
  scanMarkersAux s.length s.data

/-- One step of the reply scan of `extractContextFromVoiceflowResponse`: a
'set-variables' item merges every payload entry; a 'text' item with a
non-empty message merges every inline marker capture. -/
def applyVFItem (acc : Ctx) (item : VFItem) : Ctx :=
  let acc1 :=
    if item.type = "set-variables" then
      match item.payload with
      | some p => p.foldl (fun m kv => insertCtx m kv.1 kv.2) acc
      | none => acc
    else acc
  if item.type = "text" then
    match item.payload with
    | some p =>
      match lookupCtx p "message" with
      | some msg =>
        if msg = "" then acc1
        else (scanMarkers msg).foldl (fun m kv => insertCtx m kv.1 kv.2) acc1
      | none => acc1
    | none => acc1
  else acc1

/-- `extractContextFromVoiceflowResponse` of `meta-webhook-handler.js`: a
non-array response yields the empty context; otherwise each item is scanned
in order for the two kinds of update signal. -/
def extractContextFromVoiceflowResponse : Option (List VFItem) → Ctx
  | none => []
  | some items => items.foldl applyVFItem []

/-- The update signals contributed by one reply item, in the order they are
applied: the payload entries of a 'set-variables' item, the marker captures
of a 'text' item. -/
def itemUpdates (item : VFItem) : List (String × String) :=
  (if item.type = "set-variables" then
    match item.payload with
    | some p => p
    | none => []
  else []) ++
  (if item.type = "text" then
    match item.payload with
    | some p =>
      match lookupCtx p "message" with
      | some msg => if msg = "" then [] else scanMarkers msg
      | none => []
    | none => []
  else [])

/-- All update signals of a reply, in application order. -/
def allUpdates (items : List VFItem) : List (String × String) :=
  items.flatMap itemUpdates

/-- The value of the last update for a key in an update sequence, if any. -/
def lastVal : List (String × String) → String → Option String
  | [], _ => none
  | p :: rest, k =>
    match lastVal rest k with
    | some v => some v
    | none => if p.1 = k then some p.2 else none

/-! ## Ingestion handler (`meta-webhook-handler.js`) -/

/-- The `message` object of a Facebook messaging event; a missing `is_echo`
property is falsy, so the flag is embedded as a plain Bool. -/
structure FBMessage where
  mid : Option String := none
  text : Option String := none
  is_echo : Bool := false
  deriving DecidableEq, Repr

/-- The `value` object of an Instagram `messages` change. -/
structure IGValue where
  senderId : String
  recipientId : String
  timestamp : Nat
  deriving DecidableEq, Repr

/-- One messaging event of a webhook entry (an element of `entry.messaging`
or `entry.changes`): `sender`/`recipient` are the contained ids when the
objects are present (`none` embeds an absent object whose `.id` access
raises a TypeError). -/
structure MsgEvent where
  sender : Option String := none
  recipient : Option String := none
  timestamp : Nat := 0
  message : Option FBMessage := none
  postback : Option String := none
  field : Option String := none
  value : Option IGValue := none
  deriving DecidableEq, Repr

/-- One entry of the webhook payload. -/
structure WebhookEntry where
  messaging : Option (List MsgEvent) := none
  changes : Option (List MsgEvent) := none
  deriving DecidableEq, Repr

/-- The parsed webhook payload. -/
structure WebhookPayload where
  object : Option String := none
  entry : Option (List WebhookEntry) := none
  deriving DecidableEq, Repr

/-- Modelled from the spec: message-processor's `processInstagramMessage`
extracts `{senderId, recipientId, message, timestamp}` from an Instagram
change value; applying it to a missing value raises a TypeError at property
access. -/
def processInstagramMessage : Option IGValue → Except JsError (String × String × Nat)
  | none => .error typeErrorUndefined
  | some v => .ok (v.senderId, v.recipientId, v.timestamp)

/-- The record persisted by one successful `queueMessage` call, together
with the `type` tag the handler pushes on its result list (`none` for the
Instagram branch, which pushes no type field). -/
structure QueuedItem where
  queueId : Nat
  userId : String
  platform : String
  qtype : Option String
  senderId : String
  recipientId : String
  timestamp : Nat
  deriving DecidableEq, Repr

/-- The guard of the Facebook message branch:
`evt.message && !evt.message.is_echo`. -/
def fbMessageBranch (evt : MsgEvent) : Bool :=
  match evt.message with
  | some m => !m.is_echo
  | none => false

/-- Queue one Facebook event: read `evt.sender.id` and `evt.recipient.id`
(raising a TypeError when either object is absent), then call the queue
oracle `qa` with the running call counter.  Returns the items persisted, the
new counter, and the raised error if any. -/
def queueFB (qa : Nat → Except JsError Nat) (userId : String) (ctr : Nat)
    (evt : MsgEvent) (qtype : String) : List QueuedItem × Nat × Option JsError :=
  match evt.sender, evt.recipient with
  | some s, some r =>
    (match qa ctr with
     | .error e => ([], ctr + 1, some e)
     | .ok qid =>
       ([{ queueId := qid, userId := userId, platform := "facebook", qtype := some qtype,
           senderId := s, recipientId := r, timestamp := evt.timestamp }], ctr + 1, none))
  | _, _ => ([], ctr, some typeErrorUndefined)

/-- The body of the per-event loop of the ingestion handler: the Instagram
`messages` change branch, the Facebook non-echo message branch, the Facebook
postback branch, and the silent drop of everything else.  `qa` is the
outcome oracle of successive `queueMessage` calls (modelled from the spec:
message-queue's queueMessage persists a pending QueuedMessage and returns
its id, or raises a data-store error). -/
def handleEvent (qa : Nat → Except JsError Nat) (userId platform : String) (ctr : Nat)
    (evt : MsgEvent) : List QueuedItem × Nat × Option JsError :=
  if platform = "instagram" ∧ evt.field = some "messages" then
    match processInstagramMessage evt.value with
    | .error e => ([], ctr, some e)
    | .ok (senderId, recipientId, ts) =>
      (match qa ctr with
       | .error e => ([], ctr + 1, some e)
       | .ok qid =>
         ([{ queueId := qid, userId := userId, platform := "instagram", qtype := none,
             senderId := senderId, recipientId := recipientId, timestamp := ts }],
          ctr + 1, none))
  else if platform = "facebook" ∧ fbMessageBranch evt then
    queueFB qa userId ctr evt "message"
  else if platform = "facebook" ∧ evt.postback.isSome then
    queueFB qa userId ctr evt "postback"
  else ([], ctr, none)

/-- Fold of `handleEvent` over the events of one entry, accumulating queued
items and stopping at the first raised error (queued items persisted before
the error remain recorded). -/
def handleEvents (qa : Nat → Except JsError Nat) (userId platform : String) :
    List MsgEvent → Nat → List QueuedItem × Nat × Option JsError
  | [], ctr => ([], ctr, none)
  | evt :: rest, ctr =>
    match handleEvent qa userId platform ctr evt with
    | (items, ctr', some e) => (items, ctr', some e)
    | (items, ctr', none) =>
      match handleEvents qa userId platform rest ctr' with
      | (items', ctr'', err) => (items ++ items', ctr'', err)

/-- The entry loop: per entry, take `entry.messaging || entry.changes`
(an empty list is truthy, as in JavaScript); a missing event list skips the
entry. -/
def handleEntries (qa : Nat → Except JsError Nat) (userId platform : String) :
    List WebhookEntry → Nat → List QueuedItem × Nat × Option JsError
  | [], ctr => ([], ctr, none)
  | entry :: rest, ctr =>
    let events := match entry.messaging with
      | some l => some l
      | none => entry.changes
    match events with
    | none => handleEntries qa userId platform rest ctr
    | some evts =>
      match handleEvents qa userId platform evts ctr with
      | (items, ctr', some e) => (items, ctr', some e)
      | (items, ctr', none) =>
        match handleEntries qa userId platform rest ctr' with
        | (items', ctr'', err) => (items ++ items', ctr'', err)

/-- The tenant/platform extraction of the ingestion handler: both default to
null when the path shape does not match. -/
def metaPathIds (path : String) : Option String × Option String :=
  let segs := jsSplit path '/'
  if 5 ≤ segs.length ∧ segs.get? 2 = some "webhooks" then
    (segs.get? 3, segs.get? 4)
  else (none, none)

/-- Modelled from the spec: the result of webhook-security's
`validateWebhook` — a validity flag, the header/algorithm variant that
matched, and an explanatory message.  The keyed-hash computation itself is
supplied as an oracle parameter of the handler. -/
structure ValidationResult where
  valid : Bool
  method : String := ""
  message : String := ""
  deriving DecidableEq, Repr

/-- The observable side effects of one ingestion-handler invocation:
whether JSON.parse was reached, the queue rows persisted, whether the
best-effort batch processor ran, and the warnings logged. -/
structure IngressTrace where
  parseAttempted : Bool := false
  queuedItems : List QueuedItem := []
  processedRan : Bool := false
  warnings : List String := []
  deriving DecidableEq, Repr

/-- The warning logged when no signing secret is configured. -/
def skipValidationWarning : String :=
  "No META_APP_SECRET environment variable set. Skipping signature validation!"

/-- The POST continuation of the ingestion handler after the signature
stage: path-format check, platform check, JSON parse, payload-shape check,
entry loop, and the best-effort batch drain.  `parse` embeds JSON.parse
(`none` = SyntaxError), `qa` the queueMessage outcomes, `pending` the
outcome of processPendingMessages (modelled from the spec: message-queue's
processPendingMessages claims up to a bounded batch of pending rows and
processes them, returning how many were processed). -/
def metaPost (parse : String → Option WebhookPayload)
    (qa : Nat → Except JsError Nat) (pending : Except JsError Nat)
    (event : WebEvent) (warnings : List String) : HttpResponse × IngressTrace :=
  let ids := metaPathIds event.path
  if jsFalsyOpt ids.1 ∨ jsFalsyOpt ids.2 then
    ({ statusCode := 400
       jsonError := some "Invalid webhook URL format. Expected /api/webhooks/userId/platform/timestamp" },
     { warnings := warnings })
  else
    let userId := ids.1.getD ""
    let platform := ids.2.getD ""
    if platform ≠ "facebook" ∧ platform ≠ "instagram" then
      ({ statusCode := 400
         jsonError := some "Invalid platform. Expected facebook or instagram." },
       { warnings := warnings })
    else
      match parse event.body with
      | none =>
        ({ statusCode := 400, jsonError := some "Invalid request body. JSON parsing failed." },
         { parseAttempted := true, warnings := warnings })
      | some data =>
        if data.object ≠ some "page" ∧ data.object ≠ some "instagram" then
          ({ statusCode := 200, jsonStatus := some "ignored"
             jsonError := some "Not a messaging webhook event" },
           { parseAttempted := true, warnings := warnings })
        else
          match data.entry with
          | none =>
            ({ statusCode := 200, jsonStatus := some "error"
               jsonError := some typeErrorNotIterable.message },
             { parseAttempted := true, warnings := warnings })
          | some entries =>
            match handleEntries qa userId platform entries 0 with
            | (items, _, some e) =>
              ({ statusCode := 200, jsonStatus := some "error", jsonError := some e.message },
               { parseAttempted := true, queuedItems := items, warnings := warnings })
            | (items, _, none) =>
              match pending with
              | .error e =>
                ({ statusCode := 200, jsonStatus := some "error", jsonError := some e.message },
                 { parseAttempted := true, queuedItems := items, processedRan := true,
                   warnings := warnings })
              | .ok n =>
                ({ statusCode := 200, jsonStatus := some "success"
                   jsonError := some "Webhook events received and queued for processing"
                   jsonQueued := some items.length, jsonProcessed := some n },
                 { parseAttempted := true, queuedItems := items, processedRan := true,
                   warnings := warnings })

/-- `exports.handler` of `meta-webhook-handler.js`: CORS preflight, GET
delegation to the verification handler, method check, signature validation
gate (skipped with a logged warning when no secret is configured), then the
POST continuation.  `validate` embeds webhook-security's validateWebhook
applied to the request headers, raw body and secret. -/
def metaWebhookHandler (db : Option (Except JsError (List WebhookConfig)))
    (appSecret : Option String)
    (validate : List (String × String) → String → String → ValidationResult)
    (parse : String → Option WebhookPayload)
    (qa : Nat → Except JsError Nat) (pending : Except JsError Nat)
    (event : WebEvent) : HttpResponse × IngressTrace :=
  if event.httpMethod = "OPTIONS" then ({ statusCode := 204 }, {})
  else if event.httpMethod = "GET" then (verificationHandler db event, {})
  else if event.httpMethod ≠ "POST" then
    ({ statusCode := 405
       jsonError := some "Method not allowed. Please use POST for webhook events." }, {})
  else
    match appSecret with
    | some secret =>
      if (validate event.headers event.body secret).valid = false then
        ({ statusCode := 401, jsonError := some "Invalid webhook signature" }, {})
      else metaPost parse qa pending event []
    | none => metaPost parse qa pending event [skipValidationWarning]

/-! ## Message processing (`processMessage` of `meta-webhook-handler.js`) -/

/-- A row of the `social_connections` table as read by processMessage. -/
structure SocialConnection where
  id : Nat
  access_token : String
  ig_account_id : String := ""
  deriving DecidableEq, Repr

/-- A session handed out by the session manager. -/
structure Session where
  id : Nat
  deriving DecidableEq, Repr

/-- A row of the `conversations` table. -/
structure Conversation where
  id : Nat
  deriving DecidableEq, Repr

/-- A row of the `messages` table as returned by an insert. -/
structure SavedMessage where
  id : Nat
  conversation_id : Nat
  content : String
  sender_type : String
  deriving DecidableEq, Repr

/-- A row of the `voiceflow_mappings` table. -/
structure VoiceflowMapping where
  id : Nat
  flow_id : String := ""
  deriving DecidableEq, Repr

/-- Modelled from the spec: the canonical processed form produced by
message-processor's `processMetaMessage`; its text is the message body. -/
structure ProcessedMessage where
  text : String
  deriving DecidableEq, Repr

/-- Modelled from the spec: message-processor's `processMetaMessage`
converts the platform message payload to the canonical processed form. -/
def processMetaMessage (message : FBMessage) (platform : String) : ProcessedMessage :=
  { text := message.text.getD "" }

/-- Modelled from the spec: the outbound message rendered by
message-processor's `formatVoiceflowResponse`. -/
structure FormattedResponse where
  text : String
  deriving DecidableEq, Repr

/-- Modelled from the spec: message-processor's `formatVoiceflowResponse`
renders the structured AI reply into the outbound message; its text joins
the message fields of the reply's text items. -/
def formatVoiceflowResponse : Option (List VFItem) → FormattedResponse
  | none => { text := "" }
  | some items =>
    { text := String.intercalate " " (items.filterMap (fun item =>
        if item.type = "text" then
          match item.payload with
          | some p => lookupCtx p "message"
          | none => none
        else none)) }

/-- Worker loop of the retry executor: `op n` is the outcome of the
operation's n-th invocation; the fuel is the remaining attempt budget. -/
def retryAux (op : Nat → Except JsError α) (shouldRetry : JsError → Bool) :
    Nat → Nat → Except JsError α × Nat
  | 0, n => (.error { message := "retry budget exhausted", transient := false, status := none }, n)
  | fuel + 1, n =>
    match op n with
    | .ok a => (.ok a, n + 1)
    | .error e =>
      if fuel = 0 then (.error e, n + 1)
      else if shouldRetry e then retryAux op shouldRetry fuel (n + 1)
      else (.error e, n + 1)

/-- Modelled from the spec: error-recovery's `retryWithBackoff` invokes the
operation; on failure it consults `shouldRetry` and, when attempts remain,
retries after a backoff sleep, otherwise re-raises the final error.  The
operation is embedded as the stream of outcomes of its successive
invocations; the returned pair carries the final outcome and how many times
the operation was invoked. -/
def retryWithBackoff (op : Nat → Except JsError α) (maxRetries : Nat)
    (shouldRetry : JsError → Bool) : Except JsError α × Nat :=
  retryAux op shouldRetry maxRetries 0

/-- The context snapshot written with a dead-letter record. -/
structure DeadLetterSnapshot where
  platform : String
  conversationId : Nat
  messageId : Nat
  timestamp : Nat
  sessionId : Nat
  deriving DecidableEq, Repr

/-- Modelled from the spec: the record written by error-recovery's
`saveToDeadLetterQueue` — tenant id, original message text, failure reason
and a context snapshot. -/
structure DeadLetterRecord where
  userId : String
  messageText : String
  errorMessage : String
  snapshot : DeadLetterSnapshot
  deriving DecidableEq, Repr

/-- The observable side effects of one processMessage invocation: the
message rows inserted for the user and the assistant, the dead-letter
records written, how many outbound send calls were issued, the session
context merges and the session extensions requested. -/
structure PMTrace where
  userSaves : List SavedMessage := []
  assistantSaves : List SavedMessage := []
  deadLetters : List DeadLetterRecord := []
  sendCalls : Nat := 0
  contextUpdates : List (Nat × Ctx) := []
  sessionExtends : List Nat := []
  deriving DecidableEq, Repr

/-- The value returned by processMessage, with the fields of the different
return objects of the source unified as options. -/
structure PMResult where
  success : Bool
  error : Option String := none
  transient : Bool := false
  shouldRetry : Bool := false
  warning : Option String := none
  messageId : Option Nat := none
  sessionId : Option Nat := none
  deriving DecidableEq, Repr

/-- The outcomes of the external interactions of one processMessage run:
each field gives, per invocation index, the result of the corresponding
awaited call (Supabase round trips, the session manager, the Voiceflow API
call, the outbound send).  Session-manager writes (updateSessionContext,
linkSessionToConversation, extendSession) are modelled from the spec as
always-succeeding merges recorded on the trace. -/
structure PMEnv where
  dbAvailable : Bool := true
  connSelect : Nat → Except JsError (List SocialConnection)
  sessionResult : Except JsError Session
  convAttempt : Nat → Except JsError Conversation
  userSaveAttempt : Nat → Except JsError SavedMessage
  mappingSelect : Nat → Except JsError (List VoiceflowMapping)
  apiKeySelect : Nat → Option (List String)
  envVoiceflowKey : Option String := none
  vfCall : Nat → Except JsError (Option (List VFItem))
  assistantSaveAttempt : Nat → Except JsError SavedMessage
  sendAttempt : Nat → Except JsError Unit

/-- One invocation of the `getSocialConnection` closure: a select on
`social_connections`, raising when the result list is empty. -/
def getSocialConnectionAttempt (env : PMEnv) (userId platform recipientId : String)
    (n : Nat) : Except JsError SocialConnection :=
  match env.connSelect n with
  | .error e => .error e
  | .ok [] =>
    .error { message := "No " ++ platform ++ " connection found for user " ++ userId
                          ++ ", page ID " ++ recipientId
             transient := false, status := none }
  | .ok (c :: _) => .ok c

/-- One invocation of the `getVoiceflowMapping` closure: a select on
`voiceflow_mappings`, raising when no agent is configured. -/
def getVoiceflowMappingAttempt (env : PMEnv) (n : Nat) : Except JsError VoiceflowMapping :=
  match env.mappingSelect n with
  | .error e => .error e
  | .ok [] => .error { message := "No Voiceflow agent configured", transient := false, status := none }
  | .ok (m :: _) => .ok m

/-- One invocation of the `getApiKey` closure: a select on
`voiceflow_api_keys` whose error is ignored, falling back to the
environment key; never raises. -/
def getApiKeyAttempt (env : PMEnv) (n : Nat) : Except JsError (Option String) :=
  .ok (match env.apiKeySelect n with
       | some (k :: _) => some k
       | _ => env.envVoiceflowKey)

/-- The retry predicate of the Voiceflow call:
transient or a response status of 500 and above. -/
def shouldRetryVoiceflow (e : JsError) : Bool :=
  isTransientError e
    || (match e.status with
        | some s => decide (500 ≤ s)
        | none => false)

/-- The catch-all tail of processMessage: processError classifies the
caught error and the handler reports a non-success result, flagged for
retry when transient (processError is modelled from the spec: its
isTransient classification is the transient flag of the error). -/
def pmFailure (t : PMTrace) (e : JsError) : PMResult × PMTrace :=
  if isTransientError e then
    ({ success := false, error := some e.message, transient := true, shouldRetry := true }, t)
  else
    ({ success := false, error := some e.message }, t)

/-- `processMessage` of `meta-webhook-handler.js`: connection lookup,
session and conversation management, user-message save, Voiceflow call with
dead-lettering on exhausted retries, assistant-message save, and outbound
delivery whose failure is downgraded to a warning.  The request-building
steps (prepareVoiceflowContext, prepareVoiceflowRequest) only shape the
outbound call and leave no observable effect in this embedding. -/
def processMessage (env : PMEnv) (userId platform senderId recipientId : String)
    (message : FBMessage) (timestamp : Nat) : PMResult × PMTrace :=
  let t0 : PMTrace := {}
  if env.dbAvailable = false then
    pmFailure t0 { message := "Database connection is not available", transient := false, status := none }
  else
    match (retryWithBackoff (getSocialConnectionAttempt env userId platform recipientId) 3 isTransientError).1 with
    | .error e => pmFailure t0 e
    | .ok _connection =>
      match env.sessionResult with
      | .error e => pmFailure t0 e
      | .ok session =>
        match (retryWithBackoff env.convAttempt 3 isTransientError).1 with
        | .error e => pmFailure t0 e
        | .ok conversation =>
          let processedMessage := processMetaMessage message platform
          match (retryWithBackoff env.userSaveAttempt 2 isTransientError).1 with
          | .error e => pmFailure t0 e
          | .ok savedMessage =>
            let t1 : PMTrace :=
              { t0 with userSaves := [savedMessage]
                        contextUpdates := t0.contextUpdates
                          ++ [(session.id, [("lastUserMessage", processedMessage.text)])] }
            match (retryWithBackoff (getVoiceflowMappingAttempt env) 2 isTransientError).1 with
            | .error e => pmFailure t1 e
            | .ok _voiceflowMapping =>
              match (retryWithBackoff (getApiKeyAttempt env) 2 isTransientError).1 with
              | .error e => pmFailure t1 e
              | .ok apiKey =>
                if apiKey = none then
                  pmFailure t1 { message := "No Voiceflow API key found", transient := false, status := none }
                else
                  match (retryWithBackoff env.vfCall 3 shouldRetryVoiceflow).1 with
                  | .error e =>
                    let t2 : PMTrace :=
                      { t1 with deadLetters := t1.deadLetters
                          ++ [{ userId := userId
                                messageText := processedMessage.text
                                errorMessage := e.message
                                snapshot := { platform := platform
                                              conversationId := conversation.id
                                              messageId := savedMessage.id
                                              timestamp := timestamp
                                              sessionId := session.id } }] }
                    pmFailure t2
                      { message := "Failed to process message with AI assistant after multiple attempts"
                        transient := false, status := none }
                  | .ok vfData =>
                    let contextUpdates := extractContextFromVoiceflowResponse vfData
                    let t2 : PMTrace :=
                      if contextUpdates ≠ [] then
                        { t1 with contextUpdates := t1.contextUpdates ++ [(session.id, contextUpdates)] }
                      else t1
                    let t3 : PMTrace := { t2 with sessionExtends := t2.sessionExtends ++ [session.id] }
                    let formattedResponse := formatVoiceflowResponse vfData
                    match (retryWithBackoff env.assistantSaveAttempt 2 isTransientError).1 with
                    | .error e => pmFailure t3 e
                    | .ok assistantMessage =>
                      let t4 : PMTrace :=
                        { t3 with assistantSaves := [assistantMessage]
                                  contextUpdates := t3.contextUpdates
                                    ++ [(session.id, [("lastAssistantMessage", formattedResponse.text)])] }
                      if platform = "facebook" ∨ platform = "instagram" then
                        let sendOutcome := retryWithBackoff env.sendAttempt 3 isTransientError
                        let t5 : PMTrace := { t4 with sendCalls := sendOutcome.2 }
                        match sendOutcome.1 with
                        | .error _ =>
                          ({ success := true
                             warning := some "Message processed but failed to deliver to user"
                             messageId := some assistantMessage.id
                             sessionId := some session.id }, t5)
                        | .ok _ =>
                          ({ success := true, messageId := some assistantMessage.id
                             sessionId := some session.id }, t5)
                      else
                        ({ success := true, messageId := some assistantMessage.id
                           sessionId := some session.id }, t4)

/-! ## Helper lemmas -/

theorem lookupCtx_insertCtx_self (m : Ctx) (k v : String) :
    lookupCtx (insertCtx m k v) k = some v := by
  induction m with
  | nil => simp [insertCtx, lookupCtx]
  | cons hd tl ih =>
    obtain ⟨k', v'⟩ := hd
    by_cases h : k' = k <;> simp [insertCtx, lookupCtx, h, ih]

theorem lookupCtx_insertCtx_ne (m : Ctx) (k k' v : String) (h : k' ≠ k) :
    lookupCtx (insertCtx m k' v) k = lookupCtx m k := by
  induction m with
  | nil => simp [insertCtx, lookupCtx, h]
  | cons hd tl ih =>
    obtain ⟨k0, v0⟩ := hd
    by_cases h0 : k0 = k' <;> by_cases h1 : k0 = k <;>
      simp_all [insertCtx, lookupCtx]

theorem lookupCtx_foldl_insert (us : List (String × String)) (m : Ctx) (k : String) :
    lookupCtx (us.foldl (fun m kv => insertCtx m kv.1 kv.2) m) k =
      match lastVal us k with
      | some v => some v
      | none => lookupCtx m k := by
  induction us generalizing m with
  | nil => simp [lastVal]
  | cons p rest ih =>
    simp only [List.foldl_cons]
    rw [ih]
    cases hlv : lastVal rest k with
    | some v => simp [lastVal, hlv]
    | none =>
      by_cases hk : p.1 = k
      · subst hk; simp [lastVal, hlv, lookupCtx_insertCtx_self]
      · simp [lastVal, hlv, hk, lookupCtx_insertCtx_ne m k p.1 p.2 hk]

theorem applyVFItem_eq_foldl (acc : Ctx) (item : VFItem) :
    applyVFItem acc item =
      (itemUpdates item).foldl (fun m kv => insertCtx m kv.1 kv.2) acc := by
  by_cases h1 : item.type = "set-variables" <;> by_cases h2 : item.type = "text"
  · rw [h1] at h2; simp at h2
  · cases hp : item.payload with
    | none => simp [applyVFItem, itemUpdates, h1, h2, hp]
    | some p => simp [applyVFItem, itemUpdates, h1, h2, hp]
  · cases hp : item.payload with
    | none => simp [applyVFItem, itemUpdates, h1, h2, hp]
    | some p =>
      cases hmsg : lookupCtx p "message" with
      | none => simp [applyVFItem, itemUpdates, h1, h2, hp, hmsg]
      | some msg =>
        by_cases he : msg = "" <;> simp [applyVFItem, itemUpdates, h1, h2, hp, hmsg, he]
  · simp [applyVFItem, itemUpdates, h1, h2]

theorem foldl_applyVFItem_eq (items : List VFItem) (acc : Ctx) :
    items.foldl applyVFItem acc =
      (allUpdates items).foldl (fun m kv => insertCtx m kv.1 kv.2) acc := by
  induction items generalizing acc with
  | nil => simp [allUpdates]
  | cons i rest ih =>
    simp only [List.foldl_cons, allUpdates, List.flatMap_cons, List.foldl_append]
    rw [ih, applyVFItem_eq_foldl]
    rfl

/-! ## Claim theorems -/

/-- C1: on a GET handshake, a mode other than subscribe or a falsy token
yields 400; with mode and token present, an existing active WebhookConfig
matching the tenant filter, the platform filter and the token yields 200
with the challenge echoed verbatim; when nothing matches, 401. -/
theorem verification_handshake (configs : List WebhookConfig) (event : WebEvent)
    (hm : event.httpMethod = "GET") :
    ((event.hubMode ≠ some "subscribe" ∨ jsFalsyOpt event.hubToken = true) →
      (verificationHandler (some (.ok configs)) event).statusCode = 400)
  ∧ (∀ t : String, event.hubMode = some "subscribe" → event.hubToken = some t → t ≠ "" →
      (∃ c ∈ configs, c.is_active = true ∧
        matchesConfig (verifPathIds event.path).1 (verifPathIds event.path).2 t c = true) →
      verificationHandler (some (.ok configs)) event =
        { statusCode := 200, textBody := event.hubChallenge })
  ∧ (∀ t : String, event.hubMode = some "subscribe" → event.hubToken = some t → t ≠ "" →
      (∀ c ∈ configs, matchesConfig (verifPathIds event.path).1 (verifPathIds event.path).2 t c = false) →
      verificationHandler (some (.ok configs)) event =
        { statusCode := 401, jsonError := some "Invalid verification token." }) := by
  refine ⟨?_, ?_, ?_⟩
  · rintro (hmode | htok)
    · simp [verificationHandler, hm, hmode]
    · by_cases hmode : event.hubMode = some "subscribe"
      · simp [verificationHandler, hm, hmode, htok]
      · simp [verificationHandler, hm, hmode]
  · rintro t hmode htok htne ⟨c, hc, _hact, hmatch⟩
    have hmem : c ∈ configs.filter
        (matchesConfig (verifPathIds event.path).1 (verifPathIds event.path).2 t) :=
      List.mem_filter.mpr ⟨hc, hmatch⟩
    have hne := List.ne_nil_of_mem hmem
    simp [verificationHandler, hm, hmode, htok, jsFalsyOpt, htne, hne]
  · intro t hmode htok htne hnone
    have hnil : configs.filter
        (matchesConfig (verifPathIds event.path).1 (verifPathIds event.path).2 t) = [] := by
      rw [List.filter_eq_nil_iff]
      intro c hc
      simp [hnone c hc]
    simp [verificationHandler, hm, hmode, htok, jsFalsyOpt, htne, hnil]

/-- Witness for C1: a concrete matching active config echoes the challenge. -/
theorem verification_handshake_witness :
    verificationHandler
      (some (.ok [{ id := 1, user_id := "u1", platform := "facebook",
                    verification_token := "tok", is_active := true }]))
      { httpMethod := "GET", path := "/api/webhooks/u1/facebook/123",
        hubMode := some "subscribe", hubToken := some "tok", hubChallenge := some "CH" }
      = { statusCode := 200, textBody := some "CH" } := by
  have h := verification_handshake
    [{ id := 1, user_id := "u1", platform := "facebook",
       verification_token := "tok", is_active := true }]
    { httpMethod := "GET", path := "/api/webhooks/u1/facebook/123",
      hubMode := some "subscribe", hubToken := some "tok", hubChallenge := some "CH" } rfl
  exact h.2.1 "tok" rfl rfl (by decide)
    ⟨{ id := 1, user_id := "u1", platform := "facebook",
       verification_token := "tok", is_active := true },
     by decide, by decide, by decide⟩

/-- C9: when the module-level database client failed to initialize, every
subscribe handshake with a non-empty token gets 401 — the token lookup is
silently skipped and never reported as a server error. -/
theorem verification_uninitialized_client_401 (event : WebEvent) (t : String)
    (hm : event.httpMethod = "GET") (hmode : event.hubMode = some "subscribe")
    (htok : event.hubToken = some t) (htne : t ≠ "") :
    verificationHandler none event =
      { statusCode := 401, jsonError := some "Invalid verification token." } := by
  simp [verificationHandler, hm, hmode, htok, jsFalsyOpt, htne]

/-- Witness for C9: a handshake carrying a token that a configured row holds
still gets 401 when the client is uninitialized. -/
theorem verification_uninitialized_client_401_witness :
    verificationHandler none
      { httpMethod := "GET", path := "/api/webhooks/u1/facebook/123",
        hubMode := some "subscribe", hubToken := some "tok", hubChallenge := some "CH" }
      = { statusCode := 401, jsonError := some "Invalid verification token." } :=
  verification_uninitialized_client_401
    { httpMethod := "GET", path := "/api/webhooks/u1/facebook/123",
      hubMode := some "subscribe", hubToken := some "tok", hubChallenge := some "CH" }
    "tok" rfl rfl rfl (by decide)

/-- Counterexample for C8: the reply below carries the inline marker
[[SET:a=1]] in a text item, yet the returned map binds a to 2, because a
later set-variables item rebinds the key — last writer wins. -/
theorem extract_context_marker_overridden :
    scanMarkers "ok [[SET:a=1]] done" = [("a", "1")] ∧
    lookupCtx (extractContextFromVoiceflowResponse
        (some [{ type := "text", payload := some [("message", "ok [[SET:a=1]] done")] },
               { type := "set-variables", payload := some [("a", "2")] }])) "a"
      ≠ some "1" := by
  constructor
  · decide
  · decide

/-- C8 (amended): extractContextFromVoiceflowResponse merges, in scan order,
every key/value pair of a set-variables payload and every inline
[[SET:key=value]] capture of a text item's message into one context map;
a key k is bound to v whenever v is the last value the reply assigns to k
(last writer wins). -/
theorem extract_context_merges_last_writer (items : List VFItem) (k v : String) :
    extractContextFromVoiceflowResponse (some items) =
        (allUpdates items).foldl (fun m kv => insertCtx m kv.1 kv.2) []
  ∧ (lastVal (allUpdates items) k = some v →
      lookupCtx (extractContextFromVoiceflowResponse (some items)) k = some v) := by
  have hfold : extractContextFromVoiceflowResponse (some items) =
      (allUpdates items).foldl (fun m kv => insertCtx m kv.1 kv.2) [] :=
    foldl_applyVFItem_eq items []
  refine ⟨hfold, fun hlast => ?_⟩
  rw [hfold, lookupCtx_foldl_insert, hlast]

/-- Witness for C8: a reply with one set-variables pair and one inline
marker binds the marker's key to its value. -/
theorem extract_context_merges_last_writer_witness :
    lookupCtx (extractContextFromVoiceflowResponse
        (some [{ type := "set-variables", payload := some [("x", "0")] },
               { type := "text", payload := some [("message", "go [[SET:k=v]]")] }])) "k"
      = some "v" :=
  (extract_context_merges_last_writer
    [{ type := "set-variables", payload := some [("x", "0")] },
     { type := "text", payload := some [("message", "go [[SET:k=v]]")] }]
    "k" "v").2 (by decide)

/-- Counterexample for C6: a Facebook event whose message has is_echo true
but which also carries a postback payload is queued (as a postback event),
so an echo-marked event does not always contribute zero to the queued
count. -/
theorem echo_event_still_queued_with_postback :
    handleEvent (fun n => .ok (n + 1)) "u1" "facebook" 0
        { sender := some "S", recipient := some "R", timestamp := 7,
          message := some { is_echo := true }, postback := some "PB" }
      = ([{ queueId := 1, userId := "u1", platform := "facebook",
            qtype := some "postback", senderId := "S", recipientId := "R",
            timestamp := 7 }], 1, none) := by
  decide

/-- C6 (amended): a Facebook event whose message has is_echo true and which
carries no postback payload queues nothing: it contributes zero events. -/
theorem echo_without_postback_not_queued (qa : Nat → Except JsError Nat)
    (userId : String) (ctr : Nat) (evt : MsgEvent) (m : FBMessage)
    (hmsg : evt.message = some m) (hecho : m.is_echo = true)
    (hpb : evt.postback = none) :
    handleEvent qa userId "facebook" ctr evt = ([], ctr, none) := by
  simp [handleEvent, fbMessageBranch, hmsg, hecho, hpb]

/-- Witness for C6 (amended): a concrete echo-only event queues nothing. -/
theorem echo_without_postback_not_queued_witness :
    handleEvent (fun n => .ok (n + 1)) "u1" "facebook" 0
        { sender := some "S", recipient := some "R", timestamp := 7,
          message := some { is_echo := true } }
      = ([], 0, none) :=
  echo_without_postback_not_queued (fun n => .ok (n + 1)) "u1" 0
    { sender := some "S", recipient := some "R", timestamp := 7,
      message := some { is_echo := true } }
    { is_echo := true } rfl rfl rfl

/-- C7: a Facebook event with a postback payload and no message field queues
exactly one event, of postback type. -/
theorem postback_without_message_queued_once (qa : Nat → Except JsError Nat)
    (userId : String) (ctr : Nat) (evt : MsgEvent) (pb s r : String) (qid : Nat)
    (hmsg : evt.message = none) (hpb : evt.postback = some pb)
    (hs : evt.sender = some s) (hr : evt.recipient = some r)
    (hq : qa ctr = .ok qid) :
    handleEvent qa userId "facebook" ctr evt =
      ([{ queueId := qid, userId := userId, platform := "facebook",
          qtype := some "postback", senderId := s, recipientId := r,
          timestamp := evt.timestamp }], ctr + 1, none) := by
  simp [handleEvent, fbMessageBranch, queueFB, hmsg, hpb, hs, hr, hq]

/-- Witness for C7: a concrete postback-only event queues one postback. -/
theorem postback_without_message_queued_once_witness :
    handleEvent (fun n => .ok (n + 1)) "u1" "facebook" 0
        { sender := some "S", recipient := some "R", timestamp := 7,
          postback := some "PB" }
      = ([{ queueId := 1, userId := "u1", platform := "facebook",
            qtype := some "postback", senderId := "S", recipientId := "R",
            timestamp := 7 }], 1, none) :=
  postback_without_message_queued_once (fun n => .ok (n + 1)) "u1" 0
    { sender := some "S", recipient := some "R", timestamp := 7,
      postback := some "PB" }
    "PB" "S" "R" 1 rfl rfl rfl rfl rfl

/-- C10: a Facebook event carrying both an echo message and a postback
payload is still queued, as a postback-type event: the echo skip suppresses
only the message branch. -/
theorem echo_with_postback_queued_as_postback (qa : Nat → Except JsError Nat)
    (userId : String) (ctr : Nat) (evt : MsgEvent) (m : FBMessage)
    (pb s r : String) (qid : Nat)
    (hmsg : evt.message = some m) (hecho : m.is_echo = true)
    (hpb : evt.postback = some pb)
    (hs : evt.sender = some s) (hr : evt.recipient = some r)
    (hq : qa ctr = .ok qid) :
    handleEvent qa userId "facebook" ctr evt =
      ([{ queueId := qid, userId := userId, platform := "facebook",
          qtype := some "postback", senderId := s, recipientId := r,
          timestamp := evt.timestamp }], ctr + 1, none) := by
  simp [handleEvent, fbMessageBranch, queueFB, hmsg, hecho, hpb, hs, hr, hq]

/-- Witness for C10: a concrete echo-plus-postback event queues one
postback. -/
theorem echo_with_postback_queued_as_postback_witness :
    handleEvent (fun n => .ok (n + 1)) "u2" "facebook" 4
        { sender := some "S", recipient := some "R", timestamp := 9,
          message := some { is_echo := true }, postback := some "GO" }
      = ([{ queueId := 5, userId := "u2", platform := "facebook",
            qtype := some "postback", senderId := "S", recipientId := "R",
            timestamp := 9 }], 5, none) :=
  echo_with_postback_queued_as_postback (fun n => .ok (n + 1)) "u2" 4
    { sender := some "S", recipient := some "R", timestamp := 9,
      message := some { is_echo := true }, postback := some "GO" }
    { is_echo := true } "GO" "S" "R" 5 rfl rfl rfl rfl rfl rfl

theorem metaPost_warnings (parse : String → Option WebhookPayload)
    (qa : Nat → Except JsError Nat) (pending : Except JsError Nat)
    (event : WebEvent) (ws : List String) :
    (metaPost parse qa pending event ws).2.warnings = ws := by
  simp only [metaPost]
  repeat' split <;> try rfl

theorem metaPost_parse_cases (parse : String → Option WebhookPayload)
    (qa : Nat → Except JsError Nat) (pending : Except JsError Nat)
    (event : WebEvent) (ws : List String) (u p : String)
    (hids : metaPathIds event.path = (some u, some p)) (hu : u ≠ "")
    (hp : p = "facebook" ∨ p = "instagram") :
    (metaPost parse qa pending event ws).2.parseAttempted = true
  ∧ (parse event.body = none →
      (metaPost parse qa pending event ws).1 =
        { statusCode := 400, jsonError := some "Invalid request body. JSON parsing failed." })
  ∧ (∀ d, parse event.body = some d →
      (metaPost parse qa pending event ws).1.statusCode = 200) := by
  have hpne : p ≠ "" := by rcases hp with rfl | rfl <;> simp
  have hplat : ¬(p ≠ "facebook" ∧ p ≠ "instagram") := by
    rcases hp with rfl | rfl <;> simp
  refine ⟨?_, ?_, ?_⟩
  · cases hb : parse event.body with
    | none => simp [metaPost, hids, jsFalsyOpt, hu, hpne, hplat, hb]
    | some d =>
      simp [metaPost, hids, jsFalsyOpt, hu, hpne, hplat, hb]
      repeat' split
      all_goals rfl
  · intro hn
    simp [metaPost, hids, jsFalsyOpt, hu, hpne, hplat, hn]
  · intro d hd
    simp [metaPost, hids, jsFalsyOpt, hu, hpne, hplat, hd]
    repeat' split
    all_goals rfl

/-- C2: when a signing secret is configured and validation of the raw body
fails, the POST handler returns 401 with an empty effect trace — no parse,
no queueing, no batch processing; when no secret is configured, the skip
warning is logged and processing proceeds to payload parsing. -/
theorem ingestion_signature_gate (db : Option (Except JsError (List WebhookConfig)))
    (validate : List (String × String) → String → String → ValidationResult)
    (parse : String → Option WebhookPayload) (qa : Nat → Except JsError Nat)
    (pending : Except JsError Nat) (event : WebEvent) (secret u p : String)
    (hm : event.httpMethod = "POST") :
    ((validate event.headers event.body secret).valid = false →
      metaWebhookHandler db (some secret) validate parse qa pending event =
        ({ statusCode := 401, jsonError := some "Invalid webhook signature" },
         { parseAttempted := false, queuedItems := [], processedRan := false,
           warnings := [] }))
  ∧ (metaPathIds event.path = (some u, some p) → u ≠ "" →
      (p = "facebook" ∨ p = "instagram") →
      (metaWebhookHandler db none validate parse qa pending event).2.warnings
          = [skipValidationWarning]
      ∧ (metaWebhookHandler db none validate parse qa pending event).2.parseAttempted
          = true) := by
  constructor
  · intro hv
    simp [metaWebhookHandler, hm, hv]
  · intro hids hu hp
    have hred : metaWebhookHandler db none validate parse qa pending event =
        metaPost parse qa pending event [skipValidationWarning] := by
      simp [metaWebhookHandler, hm]
    rw [hred]
    exact ⟨metaPost_warnings parse qa pending event [skipValidationWarning],
           (metaPost_parse_cases parse qa pending event [skipValidationWarning]
             u p hids hu hp).1⟩

/-- Witness for C2: a concrete failing signature yields 401 with no
effects, and without a secret the skip warning is logged. -/
theorem ingestion_signature_gate_witness :
    metaWebhookHandler none (some "sec")
        (fun _ _ _ => { valid := false, message := "bad" }) (fun _ => some {})
        (fun n => .ok n) (.ok 0)
        { httpMethod := "POST", path := "/api/webhooks/u1/facebook/17", body := "x" }
      = ({ statusCode := 401, jsonError := some "Invalid webhook signature" },
         { parseAttempted := false, queuedItems := [], processedRan := false,
           warnings := [] })
  ∧ (metaWebhookHandler none none
        (fun _ _ _ => { valid := false, message := "bad" }) (fun _ => some {})
        (fun n => .ok n) (.ok 0)
        { httpMethod := "POST", path := "/api/webhooks/u1/facebook/17", body := "x" }).2.warnings
      = [skipValidationWarning] := by
  have h1 := ingestion_signature_gate none
    (fun _ _ _ => { valid := false, message := "bad" }) (fun _ => some {})
    (fun n => .ok n) (.ok 0)
    { httpMethod := "POST", path := "/api/webhooks/u1/facebook/17", body := "x" }
    "sec" "u1" "facebook" rfl
  exact ⟨h1.1 rfl, (h1.2 (by decide) (by decide) (Or.inl rfl)).1⟩

/-- Counterexample for C5: a POST that passes the signature, path-format and
platform checks but whose body fails JSON parsing gets a 400 response, not
the 200-with-error-body claimed. -/
theorem ingestion_parse_failure_returns_400 :
    (metaWebhookHandler none none (fun _ _ _ => { valid := true })
        (fun _ => none) (fun n => .ok n) (.ok 0)
        { httpMethod := "POST", path := "/api/webhooks/u1/facebook/17",
          body := "not json" }).1
      = { statusCode := 400
          jsonError := some "Invalid request body. JSON parsing failed." } := by
  decide

/-- C5 (amended): on a POST passing the signature, path-format and platform
checks, a JSON parse failure returns 400; every exception thrown while
processing the successfully parsed payload is swallowed into a 200 response
with an error body; the handler never returns a 5xx on that path. -/
theorem ingestion_no_5xx_after_gates (db : Option (Except JsError (List WebhookConfig)))
    (appSecret : Option String)
    (validate : List (String × String) → String → String → ValidationResult)
    (parse : String → Option WebhookPayload) (qa : Nat → Except JsError Nat)
    (pending : Except JsError Nat) (event : WebEvent) (u p : String)
    (hm : event.httpMethod = "POST")
    (hsig : appSecret = none ∨
      ∃ s, appSecret = some s ∧ (validate event.headers event.body s).valid = true)
    (hids : metaPathIds event.path = (some u, some p)) (hu : u ≠ "")
    (hp : p = "facebook" ∨ p = "instagram") :
    (parse event.body = none →
      (metaWebhookHandler db appSecret validate parse qa pending event).1 =
        { statusCode := 400, jsonError := some "Invalid request body. JSON parsing failed." })
  ∧ (∀ d, parse event.body = some d →
      (metaWebhookHandler db appSecret validate parse qa pending event).1.statusCode = 200)
  ∧ ((metaWebhookHandler db appSecret validate parse qa pending event).1.statusCode = 200
      ∨ (metaWebhookHandler db appSecret validate parse qa pending event).1.statusCode = 400) := by
  have hred : ∃ ws, metaWebhookHandler db appSecret validate parse qa pending event =
      metaPost parse qa pending event ws := by
    rcases hsig with rfl | ⟨s, rfl, hv⟩
    · exact ⟨[skipValidationWarning], by simp [metaWebhookHandler, hm]⟩
    · exact ⟨[], by simp [metaWebhookHandler, hm, hv]⟩
  obtain ⟨ws, hws⟩ := hred
  rw [hws]
  have hc := metaPost_parse_cases parse qa pending event ws u p hids hu hp
  refine ⟨hc.2.1, hc.2.2, ?_⟩
  cases hb : parse event.body with
  | none => exact Or.inr (by rw [hc.2.1 hb])
  | some d => exact Or.inl (hc.2.2 d hb)

/-- Witness for C5 (amended): a parsed payload that is not a messaging
event still gets a 200. -/
theorem ingestion_no_5xx_after_gates_witness :
    (metaWebhookHandler none none (fun _ _ _ => { valid := true })
        (fun _ => some { object := some "page", entry := none })
        (fun n => .ok n) (.ok 0)
        { httpMethod := "POST", path := "/api/webhooks/u1/facebook/17",
          body := "x" }).1.statusCode = 200 :=
  (ingestion_no_5xx_after_gates none none (fun _ _ _ => { valid := true })
    (fun _ => some { object := some "page", entry := none })
    (fun n => .ok n) (.ok 0)
    { httpMethod := "POST", path := "/api/webhooks/u1/facebook/17", body := "x" }
    "u1" "facebook" rfl (Or.inl rfl) (by decide) (by decide)
    (Or.inl rfl)).2.1 { object := some "page", entry := none } rfl

/-- C3: when the Voiceflow call fails after exhausting its retries, exactly
one dead-letter record is written, carrying the processed message text, the
error message and the context snapshot (platform, conversation id, message
id, timestamp, session id); processing stops as a terminal failure — no
assistant message row is inserted and no outbound send call is issued. -/
theorem voiceflow_failure_dead_letters (env : PMEnv)
    (userId platform senderId recipientId : String) (message : FBMessage)
    (timestamp : Nat) (conn : SocialConnection) (session : Session)
    (conversation : Conversation) (savedMessage : SavedMessage)
    (mapping : VoiceflowMapping) (key : String) (e : JsError)
    (h0 : env.dbAvailable = true)
    (h1 : (retryWithBackoff (getSocialConnectionAttempt env userId platform recipientId)
            3 isTransientError).1 = .ok conn)
    (h2 : env.sessionResult = .ok session)
    (h3 : (retryWithBackoff env.convAttempt 3 isTransientError).1 = .ok conversation)
    (h4 : (retryWithBackoff env.userSaveAttempt 2 isTransientError).1 = .ok savedMessage)
    (h5 : (retryWithBackoff (getVoiceflowMappingAttempt env) 2 isTransientError).1 = .ok mapping)
    (h6 : (retryWithBackoff (getApiKeyAttempt env) 2 isTransientError).1 = .ok (some key))
    (h7 : (retryWithBackoff env.vfCall 3 shouldRetryVoiceflow).1 = .error e) :
    (processMessage env userId platform senderId recipientId message timestamp).2.deadLetters
      = [{ userId := userId
           messageText := (processMetaMessage message platform).text
           errorMessage := e.message
           snapshot := { platform := platform, conversationId := conversation.id
                         messageId := savedMessage.id, timestamp := timestamp
                         sessionId := session.id } }]
  ∧ (processMessage env userId platform senderId recipientId message timestamp).2.assistantSaves = []
  ∧ (processMessage env userId platform senderId recipientId message timestamp).2.sendCalls = 0
  ∧ (processMessage env userId platform senderId recipientId message timestamp).1
      = { success := false
          error := some "Failed to process message with AI assistant after multiple attempts" } := by
  simp [processMessage, h0, h1, h2, h3, h4, h5, h6, h7, pmFailure, isTransientError]

/-- Witness for C3: a concrete environment whose Voiceflow call times out on
every attempt writes exactly the expected dead-letter record. -/
theorem voiceflow_failure_dead_letters_witness :
    (processMessage
        { dbAvailable := true
          connSelect := fun _ => .ok [{ id := 1, access_token := "AT" }]
          sessionResult := .ok { id := 5 }
          convAttempt := fun _ => .ok { id := 9 }
          userSaveAttempt := fun _ => .ok { id := 21, conversation_id := 9, content := "Hello", sender_type := "user" }
          mappingSelect := fun _ => .ok [{ id := 3 }]
          apiKeySelect := fun _ => some ["KEY"]
          vfCall := fun _ => .error { message := "timeout of 15000ms exceeded", transient := true, status := none }
          assistantSaveAttempt := fun _ => .ok { id := 0, conversation_id := 0, content := "", sender_type := "" }
          sendAttempt := fun _ => .ok () }
        "u1" "facebook" "S1" "P1" { text := some "Hello" } 1700).2.deadLetters
      = [{ userId := "u1", messageText := "Hello"
           errorMessage := "timeout of 15000ms exceeded"
           snapshot := { platform := "facebook", conversationId := 9, messageId := 21
                         timestamp := 1700, sessionId := 5 } }] :=
  (voiceflow_failure_dead_letters
    { dbAvailable := true
      connSelect := fun _ => .ok [{ id := 1, access_token := "AT" }]
      sessionResult := .ok { id := 5 }
      convAttempt := fun _ => .ok { id := 9 }
      userSaveAttempt := fun _ => .ok { id := 21, conversation_id := 9, content := "Hello", sender_type := "user" }
      mappingSelect := fun _ => .ok [{ id := 3 }]
      apiKeySelect := fun _ => some ["KEY"]
      vfCall := fun _ => .error { message := "timeout of 15000ms exceeded", transient := true, status := none }
      assistantSaveAttempt := fun _ => .ok { id := 0, conversation_id := 0, content := "", sender_type := "" }
      sendAttempt := fun _ => .ok () }
    "u1" "facebook" "S1" "P1" { text := some "Hello" } 1700
    { id := 1, access_token := "AT" } { id := 5 } { id := 9 }
    { id := 21, conversation_id := 9, content := "Hello", sender_type := "user" }
    { id := 3 } "KEY"
    { message := "timeout of 15000ms exceeded", transient := true, status := none }
    rfl rfl rfl rfl rfl rfl rfl rfl).1

/-- C4: when the outbound send fails after exhausting its retries,
processMessage still returns success with the delivery warning and the
assistant message id, and the assistant message saved before the send
attempt remains recorded on the trace. -/
theorem send_failure_still_success_with_warning (env : PMEnv)
    (userId platform senderId recipientId : String) (message : FBMessage)
    (timestamp : Nat) (conn : SocialConnection) (session : Session)
    (conversation : Conversation) (savedMessage : SavedMessage)
    (mapping : VoiceflowMapping) (key : String)
    (vfData : Option (List VFItem)) (assistantMessage : SavedMessage) (se : JsError)
    (h0 : env.dbAvailable = true)
    (h1 : (retryWithBackoff (getSocialConnectionAttempt env userId platform recipientId)
            3 isTransientError).1 = .ok conn)
    (h2 : env.sessionResult = .ok session)
    (h3 : (retryWithBackoff env.convAttempt 3 isTransientError).1 = .ok conversation)
    (h4 : (retryWithBackoff env.userSaveAttempt 2 isTransientError).1 = .ok savedMessage)
    (h5 : (retryWithBackoff (getVoiceflowMappingAttempt env) 2 isTransientError).1 = .ok mapping)
    (h6 : (retryWithBackoff (getApiKeyAttempt env) 2 isTransientError).1 = .ok (some key))
    (h7 : (retryWithBackoff env.vfCall 3 shouldRetryVoiceflow).1 = .ok vfData)
    (h8 : (retryWithBackoff env.assistantSaveAttempt 2 isTransientError).1 = .ok assistantMessage)
    (h9 : (retryWithBackoff env.sendAttempt 3 isTransientError).1 = .error se)
    (hp : platform = "facebook" ∨ platform = "instagram") :
    (processMessage env userId platform senderId recipientId message timestamp).1
      = { success := true
          warning := some "Message processed but failed to deliver to user"
          messageId := some assistantMessage.id
          sessionId := some session.id }
  ∧ (processMessage env userId platform senderId recipientId message timestamp).2.assistantSaves
      = [assistantMessage] := by
  rcases hp with rfl | rfl <;>
    simp [processMessage, h0, h1, h2, h3, h4, h5, h6, h7, h8, h9, pmFailure, isTransientError]

/-- Witness for C4: a concrete environment whose send call fails on every
attempt still reports success with the warning, and keeps the saved
assistant row. -/
theorem send_failure_still_success_with_warning_witness :
    (processMessage
        { dbAvailable := true
          connSelect := fun _ => .ok [{ id := 1, access_token := "AT" }]
          sessionResult := .ok { id := 5 }
          convAttempt := fun _ => .ok { id := 9 }
          userSaveAttempt := fun _ => .ok { id := 21, conversation_id := 9, content := "Hello", sender_type := "user" }
          mappingSelect := fun _ => .ok [{ id := 3 }]
          apiKeySelect := fun _ => some ["KEY"]
          vfCall := fun _ => .ok (some [{ type := "text", payload := some [("message", "Hi there")] }])
          assistantSaveAttempt := fun _ => .ok { id := 33, conversation_id := 9, content := "Hi there", sender_type := "assistant" }
          sendAttempt := fun _ => .error { message := "Network Error", transient := true, status := none } }
        "u1" "facebook" "S1" "P1" { text := some "Hello" } 1700).1
      = { success := true
          warning := some "Message processed but failed to deliver to user"
          messageId := some 33, sessionId := some 5 } :=
  (send_failure_still_success_with_warning
    { dbAvailable := true
      connSelect := fun _ => .ok [{ id := 1, access_token := "AT" }]
      sessionResult := .ok { id := 5 }
      convAttempt := fun _ => .ok { id := 9 }
      userSaveAttempt := fun _ => .ok { id := 21, conversation_id := 9, content := "Hello", sender_type := "user" }
      mappingSelect := fun _ => .ok [{ id := 3 }]
      apiKeySelect := fun _ => some ["KEY"]
      vfCall := fun _ => .ok (some [{ type := "text", payload := some [("message", "Hi there")] }])
      assistantSaveAttempt := fun _ => .ok { id := 33, conversation_id := 9, content := "Hi there", sender_type := "assistant" }
      sendAttempt := fun _ => .error { message := "Network Error", transient := true, status := none } }
    "u1" "facebook" "S1" "P1" { text := some "Hello" } 1700
    { id := 1, access_token := "AT" } { id := 5 } { id := 9 }
    { id := 21, conversation_id := 9, content := "Hello", sender_type := "user" }
    { id := 3 } "KEY"
    (some [{ type := "text", payload := some [("message", "Hi there")] }])
    { id := 33, conversation_id := 9, content := "Hi there", sender_type := "assistant" }
    { message := "Network Error", transient := true, status := none }
    rfl rfl rfl rfl rfl rfl rfl rfl rfl rfl (Or.inl rfl)).1
